import Mathlib

/-!
A verification development for the Supabase/Redis vCon storage backend
(`conserver-supabase-storage.py`).  The Python module maps a nested vCon
document into normalized relational rows (header plus four sub-collection
tables), reads it back, and layers a write-through / read-through cache on
top.  We embed the document model, the row codec, the store state, the
cache, and the four public operations (`save`, `get`, `delete`, `search`)
as executable Lean definitions and prove the claimed properties about them.

Python dictionary values are modelled by the inductive `JVal`; a Python
dict field that may be absent is an `Option JVal` (`none` = key absent,
`some v` = key present with value `v`, where `v` may itself be
`JVal.null`).  Python truthiness is the function `truthy`.
-/

/-- A JSON-like value, standing in for an arbitrary Python value stored in
a vCon field or a database column. -/
inductive JVal where
  | null : JVal
  | str : String → JVal
  | num : Int → JVal
  | arr : List JVal → JVal
  | obj : List (String × JVal) → JVal

/-- Python truthiness of a value: `None`, `""`, `0`, `[]`, `{}` are falsy. -/
def truthy : JVal → Bool
  | JVal.null => false
  | JVal.str s => s != ""
  | JVal.num n => n != 0
  | JVal.arr xs => !xs.isEmpty
  | JVal.obj kvs => !kvs.isEmpty

/-- `dict.get(k)`: an absent key reads as `None`. -/
def getJ (o : Option JVal) : JVal := o.getD JVal.null

/-- Whether a value is the Python `None`. -/
def isNull : JVal → Bool
  | JVal.null => true
  | _ => false

/-- Decode step for a truthiness-guarded column: the field is emitted only
when the stored column value is truthy (`if row.get(col): out[field] = ...`). -/
def decOpt (v : JVal) : Option JVal :=
  if truthy v then some v else none

/-- Decode step for an `is not None`-guarded column
(`if row.get(col) is not None: out[field] = ...`). -/
def decNum (v : JVal) : Option JVal :=
  match v with
  | JVal.null => none
  | w => some w

/-! ## The document model

One structure per sub-entity kind, with exactly the fields the Python
module reads and writes, in source order. -/

/-- A party record of a vCon (all fields optional). -/
structure Party where
  tel : Option JVal
  sip : Option JVal
  stir : Option JVal
  mailto : Option JVal
  name : Option JVal
  did : Option JVal
  uuid : Option JVal
  validation : Option JVal
  jcard : Option JVal
  gmlpos : Option JVal
  civicaddress : Option JVal
  timezone : Option JVal

/-- A dialog entry of a vCon. -/
structure Dialog where
  type : Option JVal
  start : Option JVal
  duration : Option JVal
  parties : Option JVal
  originator : Option JVal
  mediatype : Option JVal
  filename : Option JVal
  body : Option JVal
  encoding : Option JVal
  url : Option JVal
  content_hash : Option JVal
  disposition : Option JVal
  session_id : Option JVal
  application : Option JVal
  message_id : Option JVal

/-- An analysis entry of a vCon. -/
structure Analysis where
  type : Option JVal
  dialog : Option JVal
  mediatype : Option JVal
  filename : Option JVal
  vendor : Option JVal
  product : Option JVal
  schema : Option JVal
  body : Option JVal
  encoding : Option JVal
  url : Option JVal
  content_hash : Option JVal

/-- An attachment of a vCon. -/
structure Attachment where
  type : Option JVal
  start : Option JVal
  party : Option JVal
  dialog : Option JVal
  mediatype : Option JVal
  filename : Option JVal
  body : Option JVal
  encoding : Option JVal
  url : Option JVal
  content_hash : Option JVal

/-- A vCon document: header fields plus the four ordered sub-collections.
`uuid` is kept as a string (the public operations key on it). -/
structure Vcon where
  uuid : Option String
  vcon : Option JVal
  subject : Option JVal
  created_at : Option JVal
  updated_at : Option JVal
  extensions : Option JVal
  must_support : Option JVal
  redacted : Option JVal
  appended : Option JVal
  parties : Option (List Party)
  dialog : Option (List Dialog)
  analysis : Option (List Analysis)
  attachments : Option (List Attachment)

/-! ## The relational rows -/

/-- A row of the `vcons` header table; `id` is the store-generated key used
as the foreign key for the dependent tables. -/
structure VconRow where
  id : Nat
  uuid : String
  vcon_version : JVal
  subject : JVal
  created_at : JVal
  updated_at : JVal
  extensions : JVal
  must_support : JVal
  redacted : JVal
  appended : JVal

/-- A row of the `parties` table. -/
structure PartyRow where
  vcon_id : Nat
  party_index : Nat
  tel : JVal
  sip : JVal
  stir : JVal
  mailto : JVal
  name : JVal
  did : JVal
  uuid : JVal
  validation : JVal
  jcard : JVal
  gmlpos : JVal
  civicaddress : JVal
  timezone : JVal

/-- A row of the `dialog` table. -/
structure DialogRow where
  vcon_id : Nat
  dialog_index : Nat
  type : JVal
  start_time : JVal
  duration_seconds : JVal
  parties : JVal
  originator : JVal
  mediatype : JVal
  filename : JVal
  body : JVal
  encoding : JVal
  url : JVal
  content_hash : JVal
  disposition : JVal
  session_id : JVal
  application : JVal
  message_id : JVal

/-- A row of the `analysis` table. -/
structure AnalysisRow where
  vcon_id : Nat
  analysis_index : Nat
  type : JVal
  dialog_indices : JVal
  mediatype : JVal
  filename : JVal
  vendor : JVal
  product : JVal
  schema : JVal
  body : JVal
  encoding : JVal
  url : JVal
  content_hash : JVal

/-- A row of the `attachments` table (note: the document's `mediatype` is
stored under the `mimetype` column). -/
structure AttachmentRow where
  vcon_id : Nat
  attachment_index : Nat
  type : JVal
  start_time : JVal
  party : JVal
  dialog : JVal
  mimetype : JVal
  filename : JVal
  body : JVal
  encoding : JVal
  url : JVal
  content_hash : JVal

/-! ## The row codec

Encoders are the row-building parts of `_save_parties` / `_save_dialog` /
`_save_analysis` / `_save_attachments`; decoders are `_party_from_db` /
`_dialog_from_db` / `_analysis_from_db` / `_attachment_from_db`. -/

/-- Row built for one party inside `_save_parties`. -/
def party_to_row (vid i : Nat) (p : Party) : PartyRow :=
  { vcon_id := vid
    party_index := i
    tel := getJ p.tel
    sip := getJ p.sip
    stir := getJ p.stir
    mailto := getJ p.mailto
    name := getJ p.name
    did := getJ p.did
    uuid := getJ p.uuid
    validation := getJ p.validation
    jcard := getJ p.jcard
    gmlpos := getJ p.gmlpos
    civicaddress := getJ p.civicaddress
    timezone := getJ p.timezone }

/-- `_party_from_db`: every field is rebuilt under a truthiness guard. -/
def party_from_db (r : PartyRow) : Party :=
  { tel := decOpt r.tel
    sip := decOpt r.sip
    stir := decOpt r.stir
    mailto := decOpt r.mailto
    name := decOpt r.name
    did := decOpt r.did
    uuid := decOpt r.uuid
    validation := decOpt r.validation
    jcard := decOpt r.jcard
    gmlpos := decOpt r.gmlpos
    civicaddress := decOpt r.civicaddress
    timezone := decOpt r.timezone }

/-- Row built for one dialog entry inside `_save_dialog`. -/
def dialog_to_row (vid i : Nat) (d : Dialog) : DialogRow :=
  { vcon_id := vid
    dialog_index := i
    type := getJ d.type
    start_time := getJ d.start
    duration_seconds := getJ d.duration
    parties := getJ d.parties
    originator := getJ d.originator
    mediatype := getJ d.mediatype
    filename := getJ d.filename
    body := getJ d.body
    encoding := getJ d.encoding
    url := getJ d.url
    content_hash := getJ d.content_hash
    disposition := getJ d.disposition
    session_id := getJ d.session_id
    application := getJ d.application
    message_id := getJ d.message_id }

/-- `_dialog_from_db`: `type` is rebuilt unconditionally; `duration` and
`originator` are guarded by `is not None`; the rest by truthiness. -/
def dialog_from_db (r : DialogRow) : Dialog :=
  { type := some r.type
    start := decOpt r.start_time
    duration := decNum r.duration_seconds
    parties := decOpt r.parties
    originator := decNum r.originator
    mediatype := decOpt r.mediatype
    filename := decOpt r.filename
    body := decOpt r.body
    encoding := decOpt r.encoding
    url := decOpt r.url
    content_hash := decOpt r.content_hash
    disposition := decOpt r.disposition
    session_id := decOpt r.session_id
    application := decOpt r.application
    message_id := decOpt r.message_id }

/-- The dialog-reference normalization in `_save_analysis`: a present,
non-`None`, non-list value is wrapped into a one-element list. -/
def normDialogWrite (d : Option JVal) : JVal :=
  match getJ d with
  | JVal.null => JVal.null
  | JVal.arr xs => JVal.arr xs
  | w => JVal.arr [w]

/-- Row built for one analysis entry inside `_save_analysis`. -/
def analysis_to_row (vid i : Nat) (a : Analysis) : AnalysisRow :=
  { vcon_id := vid
    analysis_index := i
    type := getJ a.type
    dialog_indices := normDialogWrite a.dialog
    mediatype := getJ a.mediatype
    filename := getJ a.filename
    vendor := getJ a.vendor
    product := getJ a.product
    schema := getJ a.schema
    body := getJ a.body
    encoding := getJ a.encoding
    url := getJ a.url
    content_hash := getJ a.content_hash }

/-- The dialog-reference read-back in `_analysis_from_db`: only a truthy
stored value yields a field, and a one-element list is unwrapped. -/
def analysisDialogFromDb (v : JVal) : Option JVal :=
  if truthy v then
    match v with
    | JVal.arr [x] => some x
    | w => some w
  else none

/-- `_analysis_from_db`: `type` and `vendor` are rebuilt unconditionally. -/
def analysis_from_db (r : AnalysisRow) : Analysis :=
  { type := some r.type
    vendor := some r.vendor
    dialog := analysisDialogFromDb r.dialog_indices
    mediatype := decOpt r.mediatype
    filename := decOpt r.filename
    product := decOpt r.product
    schema := decOpt r.schema
    body := decOpt r.body
    encoding := decOpt r.encoding
    url := decOpt r.url
    content_hash := decOpt r.content_hash }

/-- Row built for one attachment inside `_save_attachments` (`mediatype`
goes to the `mimetype` column). -/
def attachment_to_row (vid i : Nat) (a : Attachment) : AttachmentRow :=
  { vcon_id := vid
    attachment_index := i
    type := getJ a.type
    start_time := getJ a.start
    party := getJ a.party
    dialog := getJ a.dialog
    mimetype := getJ a.mediatype
    filename := getJ a.filename
    body := getJ a.body
    encoding := getJ a.encoding
    url := getJ a.url
    content_hash := getJ a.content_hash }

/-- `_attachment_from_db`: `party` and `dialog` are guarded by
`is not None`; the rest by truthiness. -/
def attachment_from_db (r : AttachmentRow) : Attachment :=
  { type := decOpt r.type
    start := decOpt r.start_time
    party := decNum r.party
    dialog := decNum r.dialog
    mediatype := decOpt r.mimetype
    filename := decOpt r.filename
    body := decOpt r.body
    encoding := decOpt r.encoding
    url := decOpt r.url
    content_hash := decOpt r.content_hash }

/-! ## Store tables

Each sub-collection save iterates `enumerate(entities)` and upserts one row
per entity; each read filters by `vcon_id` and orders by the index column.
These are modelled generically over a row type with projections for the
foreign key (`vid`) and the position column (`idx`). -/

/-- `upsert(table, row)` keyed by `(vcon_id, index)`: replace the row with
the same key if one exists, otherwise append. -/
def upsertRow {ρ : Type} (vid idx : ρ → Nat) (tbl : List ρ) (r : ρ) : List ρ :=
  if tbl.any (fun s => vid s == vid r && idx s == idx r) then
    tbl.map (fun s => if vid s == vid r && idx s == idx r then r else s)
  else tbl ++ [r]

/-- The `for idx, e in enumerate(entities)` upsert loop shared by the four
`_save_*` helpers, starting at position `i`. -/
def saveLoop {α ρ : Type} (vid idx : ρ → Nat) (enc : Nat → α → ρ) :
    Nat → List α → List ρ → List ρ
  | _, [], tbl => tbl
  | i, a :: rest, tbl => saveLoop vid idx enc (i + 1) rest (upsertRow vid idx tbl (enc i a))

/-- The rows an enumerate-loop produces, in loop order. -/
def mapEnum {α ρ : Type} (enc : Nat → α → ρ) : Nat → List α → List ρ
  | _, [] => []
  | i, a :: rest => enc i a :: mapEnum enc (i + 1) rest

/-- Insertion step of the store's `order(index)` capability. -/
def insertOn {ρ : Type} (idx : ρ → Nat) (r : ρ) : List ρ → List ρ
  | [] => [r]
  | s :: rest => if idx r ≤ idx s then r :: s :: rest else s :: insertOn idx r rest

/-- The store's `order(index)` capability: a stable sort on the position
column. -/
def sortOn {ρ : Type} (idx : ρ → Nat) : List ρ → List ρ
  | [] => []
  | r :: rest => insertOn idx r (sortOn idx rest)

/-- `select('*').eq('vcon_id', v).order(index)`: filter by foreign key and
sort by position. -/
def readRows {ρ : Type} (vid idx : ρ → Nat) (v : Nat) (tbl : List ρ) : List ρ :=
  sortOn idx (tbl.filter (fun r => vid r == v))

/-! ## Database and cache state -/

/-- The relational store: the header table, the four dependent tables, and
the counter producing store-generated ids. -/
structure DB where
  vcons : List VconRow
  parties : List PartyRow
  dialogs : List DialogRow
  analyses : List AnalysisRow
  attachments : List AttachmentRow
  nextId : Nat

/-- The empty store. -/
def emptyDB : DB :=
  { vcons := [], parties := [], dialogs := [], analyses := [], attachments := [], nextId := 0 }

/-- The Redis cache, keyed by document uuid.  `json.dumps`/`json.loads`
round-trip a dict unchanged, so the serialized entry is modelled by the
document value itself. -/
def Cache : Type := List (String × Vcon)

/-- The full state seen by the storage backend. -/
structure St where
  db : DB
  cache : Cache

/-- The empty state. -/
def st0 : St := { db := emptyDB, cache := [] }

/-- Configuration: whether the optional Redis cache is enabled. -/
structure Config where
  cacheEnabled : Bool

/-- Fault injection: `store` makes every Supabase call raise; the three
cache flags make the corresponding Redis call raise. -/
structure Faults where
  store : Bool
  cacheGet : Bool
  cacheSet : Bool
  cacheDel : Bool

/-- No injected faults. -/
def f0 : Faults := { store := false, cacheGet := false, cacheSet := false, cacheDel := false }

/-- Cache lookup: the value stored under a key, if any. -/
def lookupCache (c : Cache) (k : String) : Option Vcon :=
  match c.find? (fun e => e.1 == k) with
  | some e => some e.2
  | none => none

/-- `redis.get`, as a fallible operation. -/
def cacheGetOp (f : Faults) (c : Cache) (k : String) : Except Unit (Option Vcon) :=
  if f.cacheGet then Except.error ()
  else Except.ok (lookupCache c k)

/-- `redis.setex`, as a fallible operation. -/
def cacheSetOp (f : Faults) (c : Cache) (k : String) (v : Vcon) : Except Unit Cache :=
  if f.cacheSet then Except.error ()
  else Except.ok ((k, v) :: c.filter (fun e => !(e.1 == k)))

/-- `redis.delete`, as a fallible operation. -/
def cacheDelOp (f : Faults) (c : Cache) (k : String) : Except Unit Cache :=
  if f.cacheDel then Except.error ()
  else Except.ok (c.filter (fun e => !(e.1 == k)))

/-! ## The store gateway -/

/-- The header row `vcon_data` built by `save` (the `id` field is a
placeholder until the upsert assigns one).  Absent timestamps default to
the current time; absent `redacted`/`appended` default to `{}`; absent
`vcon` defaults to `"0.3.0"`; `subject`/`extensions`/`must_support` are
stored as nulls when absent. -/
def headerRow (u now : String) (v : Vcon) : VconRow :=
  { id := 0
    uuid := u
    vcon_version := v.vcon.getD (JVal.str "0.3.0")
    subject := getJ v.subject
    created_at := v.created_at.getD (JVal.str now)
    updated_at := v.updated_at.getD (JVal.str now)
    extensions := getJ v.extensions
    must_support := getJ v.must_support
    redacted := v.redacted.getD (JVal.obj [])
    appended := v.appended.getD (JVal.obj []) }

/-- `table('vcons').upsert(vcon_data)`: insert-or-replace keyed by `uuid`,
returning the store-generated `id`. -/
def upsertVcon (db : DB) (r : VconRow) : DB × Nat :=
  match db.vcons.find? (fun s => s.uuid == r.uuid) with
  | some old =>
      ({ db with vcons := db.vcons.map (fun s => if s.uuid == r.uuid then { r with id := old.id } else s) },
       old.id)
  | none =>
      ({ db with vcons := db.vcons ++ [{ r with id := db.nextId }], nextId := db.nextId + 1 },
       db.nextId)

/-- `_save_parties`. -/
def save_parties (vid : Nat) (ps : List Party) (tbl : List PartyRow) : List PartyRow :=
  saveLoop PartyRow.vcon_id PartyRow.party_index (party_to_row vid) 0 ps tbl

/-- `_save_dialog`. -/
def save_dialog (vid : Nat) (ds : List Dialog) (tbl : List DialogRow) : List DialogRow :=
  saveLoop DialogRow.vcon_id DialogRow.dialog_index (dialog_to_row vid) 0 ds tbl

/-- `_save_analysis`. -/
def save_analysis (vid : Nat) (xs : List Analysis) (tbl : List AnalysisRow) : List AnalysisRow :=
  saveLoop AnalysisRow.vcon_id AnalysisRow.analysis_index (analysis_to_row vid) 0 xs tbl

/-- `_save_attachments`. -/
def save_attachments (vid : Nat) (xs : List Attachment) (tbl : List AttachmentRow) : List AttachmentRow :=
  saveLoop AttachmentRow.vcon_id AttachmentRow.attachment_index (attachment_to_row vid) 0 xs tbl

/-- `_get_parties`. -/
def get_parties (vid : Nat) (tbl : List PartyRow) : List Party :=
  (readRows PartyRow.vcon_id PartyRow.party_index vid tbl).map party_from_db

/-- `_get_dialog`. -/
def get_dialog (vid : Nat) (tbl : List DialogRow) : List Dialog :=
  (readRows DialogRow.vcon_id DialogRow.dialog_index vid tbl).map dialog_from_db

/-- `_get_analysis`. -/
def get_analysis (vid : Nat) (tbl : List AnalysisRow) : List Analysis :=
  (readRows AnalysisRow.vcon_id AnalysisRow.analysis_index vid tbl).map analysis_from_db

/-- `_get_attachments`. -/
def get_attachments (vid : Nat) (tbl : List AttachmentRow) : List Attachment :=
  (readRows AttachmentRow.vcon_id AttachmentRow.attachment_index vid tbl).map attachment_from_db

/-- The document reconstructed by `get` from the header row and the four
dependent tables.  Every header key is emitted (as a null/default when the
column is null); the four sub-collection keys always hold lists. -/
def assembleVcon (db : DB) (r : VconRow) : Vcon :=
  { uuid := some r.uuid
    vcon := some r.vcon_version
    subject := some r.subject
    created_at := some r.created_at
    updated_at := some r.updated_at
    extensions := some r.extensions
    must_support := some r.must_support
    redacted := some r.redacted
    appended := some r.appended
    parties := some (get_parties r.id db.parties)
    dialog := some (get_dialog r.id db.dialogs)
    analysis := some (get_analysis r.id db.analyses)
    attachments := some (get_attachments r.id db.attachments) }

namespace SB

/-- The body of `save`'s `try` block.  `Except.error` is a raised
exception reaching the enclosing handler: the missing-uuid `ValueError`,
or any Supabase call raising (all store calls fault together under
`f.store`, and the `if not result.data: raise` branch is folded into the
same event).  A sub-collection is written only when its key is present and
its list non-empty (`if 'parties' in vcon and vcon['parties']`).  On full
store success the cache is refreshed best-effort: a `setex` fault is
swallowed. -/
def saveTry (cfg : Config) (f : Faults) (st : St) (now : String) (v : Vcon) :
    Except Unit (St × Bool) :=
  let u := v.uuid.getD ""
  if u == "" then Except.error ()
  else if f.store then Except.error ()
  else
    let p1 := upsertVcon st.db (headerRow u now v)
    let db1 := p1.1
    let vid := p1.2
    let db2 := match v.parties with
      | some ps => if ps.isEmpty then db1 else { db1 with parties := save_parties vid ps db1.parties }
      | none => db1
    let db3 := match v.dialog with
      | some ds => if ds.isEmpty then db2 else { db2 with dialogs := save_dialog vid ds db2.dialogs }
      | none => db2
    let db4 := match v.analysis with
      | some xs => if xs.isEmpty then db3 else { db3 with analyses := save_analysis vid xs db3.analyses }
      | none => db3
    let db5 := match v.attachments with
      | some xs => if xs.isEmpty then db4 else { db4 with attachments := save_attachments vid xs db4.attachments }
      | none => db4
    let c2 := if cfg.cacheEnabled then
        match cacheSetOp f st.cache u v with
        | Except.ok c => c
        | Except.error _ => st.cache
      else st.cache
    Except.ok ({ db := db5, cache := c2 }, true)

/-- Public `save`: the catch-all `except` converts any raised fault into
the boolean-false outcome, leaving the state as it was at the raise
(a missing uuid or an injected store fault raises before any write). -/
def save (cfg : Config) (f : Faults) (st : St) (now : String) (v : Vcon) : St × Bool :=
  match saveTry cfg f st now v with
  | Except.ok r => r
  | Except.error _ => (st, false)

/-- The body of `get`'s store-path `try` block.  `.single()` raises when no
header row matches, so an absent uuid surfaces as an exception caught by
the handler.  After assembling, the cache is populated best-effort. -/
def getTry (cfg : Config) (f : Faults) (st : St) (u : String) :
    Except Unit (St × Option Vcon) :=
  if f.store then Except.error ()
  else
    match st.db.vcons.find? (fun r => r.uuid == u) with
    | none => Except.error ()
    | some r =>
        let w := assembleVcon st.db r
        let c2 := if cfg.cacheEnabled then
            match cacheSetOp f st.cache u w with
            | Except.ok c => c
            | Except.error _ => st.cache
          else st.cache
        Except.ok ({ st with cache := c2 }, some w)

/-- Public `get`: cache first (a cache read fault is logged and treated as
a miss), then the store path, whose faults are converted to `none`. -/
def get (cfg : Config) (f : Faults) (st : St) (u : String) : St × Option Vcon :=
  let hit : Option Vcon :=
    if cfg.cacheEnabled then
      match cacheGetOp f st.cache u with
      | Except.ok (some w) => some w
      | _ => none
    else none
  match hit with
  | some w => (st, some w)
  | none =>
      match getTry cfg f st u with
      | Except.ok r => r
      | Except.error _ => (st, none)

/-- `table('vcons').delete().eq('uuid', u)` with the store's cascade to the
dependent tables. -/
def deleteVcon (db : DB) (u : String) : DB :=
  let ids := (db.vcons.filter (fun r => r.uuid == u)).map VconRow.id
  { vcons := db.vcons.filter (fun r => !(r.uuid == u))
    parties := db.parties.filter (fun r => !(ids.contains r.vcon_id))
    dialogs := db.dialogs.filter (fun r => !(ids.contains r.vcon_id))
    analyses := db.analyses.filter (fun r => !(ids.contains r.vcon_id))
    attachments := db.attachments.filter (fun r => !(ids.contains r.vcon_id))
    nextId := db.nextId }

/-- The body of `delete`'s `try` block: store delete, then best-effort
cache invalidation (a cache delete fault is swallowed).  Deleting an
absent uuid succeeds. -/
def deleteTry (cfg : Config) (f : Faults) (st : St) (u : String) :
    Except Unit (St × Bool) :=
  if f.store then Except.error ()
  else
    let db1 := deleteVcon st.db u
    let c2 := if cfg.cacheEnabled then
        match cacheDelOp f st.cache u with
        | Except.ok c => c
        | Except.error _ => st.cache
      else st.cache
    Except.ok ({ db := db1, cache := c2 }, true)

/-- Public `delete`: the catch-all `except` converts a raised store fault
into the boolean-false outcome. -/
def delete (cfg : Config) (f : Faults) (st : St) (u : String) : St × Bool :=
  match deleteTry cfg f st u with
  | Except.ok r => r
  | Except.error _ => (st, false)

end SB

/-! ## Search -/

/-- Lowercase an ASCII character (for the case-insensitive `ilike`). -/
def lcChar (c : Char) : Char :=
  if 65 ≤ c.toNat && c.toNat ≤ 90 then Char.ofNat (c.toNat + 32) else c

/-- Lowercase a string. -/
def lowerS (s : String) : List Char := s.toList.map lcChar

/-- Boolean list-prefix test. -/
def listPrefixB : List Char → List Char → Bool
  | [], _ => true
  | _ :: _, [] => false
  | a :: as_, b :: bs => a == b && listPrefixB as_ bs

/-- Boolean list-infix test. -/
def listInfixB (p : List Char) : List Char → Bool
  | [] => listPrefixB p []
  | c :: cs => listPrefixB p (c :: cs) || listInfixB p cs

/-- The store's `ilike('subject', '%pat%')` capability on a column value:
a null (or non-string) column never matches; otherwise a case-insensitive
substring test. -/
def ilikeContains (v : JVal) (pat : String) : Bool :=
  match v with
  | JVal.str s => listInfixB (lowerS pat) (lowerS s)
  | _ => false

/-- Lexicographic string order (ISO-8601 timestamps compare correctly this
way, matching the store's `gte`/`lte` on `created_at`). -/
def strLeB (s t : String) : Bool :=
  lexLe s.toList t.toList
where
  lexLe : List Char → List Char → Bool
    | [], _ => true
    | _ :: _, [] => false
    | a :: as_, b :: bs =>
      if a.toNat < b.toNat then true
      else if b.toNat < a.toNat then false
      else lexLe as_ bs

/-- The store's `gte('created_at', s)` on a column value. -/
def gteCreated (v : JVal) (s : String) : Bool :=
  match v with
  | JVal.str t => strLeB s t
  | _ => false

/-- The store's `lte('created_at', s)` on a column value. -/
def lteCreated (v : JVal) (s : String) : Bool :=
  match v with
  | JVal.str t => strLeB t s
  | _ => false

/-- Search criteria: the three optional filters `search` recognizes. -/
structure Query where
  subject : Option String
  start_date : Option String
  end_date : Option String

/-- The filter chain built in `search`: each present criterion adds one
conjunctive condition on the header row. -/
def matchQuery (q : Query) (r : VconRow) : Bool :=
  (match q.subject with
   | none => true
   | some s => ilikeContains r.subject s) &&
  (match q.start_date with
   | none => true
   | some s => gteCreated r.created_at s) &&
  (match q.end_date with
   | none => true
   | some s => lteCreated r.created_at s)

namespace SB

/-- The `for row in result.data` loop of `search`: resolve each selected
uuid through the public `get` (which may consult and populate the cache),
keeping only the documents that resolve. -/
def resolveIds (cfg : Config) (f : Faults) : St → List String → St × List Vcon
  | st, [] => (st, [])
  | st, u :: us =>
      let p := SB.get cfg f st u
      let rest := resolveIds cfg f p.1 us
      (rest.1, match p.2 with
        | some w => w :: rest.2
        | none => rest.2)

/-- Public `search`: filter the header table by the present criteria,
select the matching uuids, resolve each via `get`; any store fault during
the select degrades to the empty list. -/
def search (cfg : Config) (f : Faults) (st : St) (q : Query) : St × List Vcon :=
  if f.store then (st, [])
  else resolveIds cfg f st (((st.db.vcons).filter (matchQuery q)).map VconRow.uuid)

end SB

/-! ## Well-formedness of sub-entity fields

`okOpt` is the condition under which a truthiness-guarded field survives
the round trip; `okNum` the same for an `is not None`-guarded field. -/

/-- An optional field either absent or populated with a truthy value. -/
def okOpt (o : Option JVal) : Bool :=
  match o with
  | none => true
  | some v => truthy v

/-- An optional field either absent or populated with a non-`None` value. -/
def okNum (o : Option JVal) : Bool :=
  match o with
  | none => true
  | some v => !isNull v

/-- The analysis dialog reference: anything except an explicit null or an
explicit empty list (both of which decode to an absent field). -/
def okAnalysisDialog (o : Option JVal) : Bool :=
  match o with
  | some JVal.null => false
  | some (JVal.arr []) => false
  | _ => true

/-- A party whose populated fields are all truthy. -/
def partyOk (p : Party) : Bool :=
  okOpt p.tel && okOpt p.sip && okOpt p.stir && okOpt p.mailto && okOpt p.name &&
  okOpt p.did && okOpt p.uuid && okOpt p.validation && okOpt p.jcard &&
  okOpt p.gmlpos && okOpt p.civicaddress && okOpt p.timezone

/-- A dialog entry with its required `type` present, zero allowed for
`duration`/`originator`, and every other populated field truthy. -/
def dialogOk (d : Dialog) : Bool :=
  d.type.isSome && okOpt d.start && okNum d.duration && okOpt d.parties &&
  okNum d.originator && okOpt d.mediatype && okOpt d.filename && okOpt d.body &&
  okOpt d.encoding && okOpt d.url && okOpt d.content_hash && okOpt d.disposition &&
  okOpt d.session_id && okOpt d.application && okOpt d.message_id

/-- An analysis entry with `type` and `vendor` present and every other
populated field truthy; the dialog reference may be any scalar or
non-empty list. -/
def analysisOk (a : Analysis) : Bool :=
  a.type.isSome && a.vendor.isSome && okAnalysisDialog a.dialog &&
  okOpt a.mediatype && okOpt a.filename && okOpt a.product && okOpt a.schema &&
  okOpt a.body && okOpt a.encoding && okOpt a.url && okOpt a.content_hash

/-- An attachment with zero allowed for the `party`/`dialog` indices and
every other populated field truthy. -/
def attachmentOk (a : Attachment) : Bool :=
  okOpt a.type && okOpt a.start && okNum a.party && okNum a.dialog &&
  okOpt a.mediatype && okOpt a.filename && okOpt a.body && okOpt a.encoding &&
  okOpt a.url && okOpt a.content_hash

/-- The one shape change the codec performs: a singleton-list dialog
reference comes back as its bare element. -/
def singletonNorm (o : Option JVal) : Option JVal :=
  match o with
  | some (JVal.arr [x]) => some x
  | w => w

/-- The expected image of an analysis entry under the round trip. -/
def analysisNorm (a : Analysis) : Analysis :=
  { a with dialog := singletonNorm a.dialog }

/-! ## Per-element codec round-trip lemmas -/

lemma decOpt_getJ {o : Option JVal} (h : okOpt o = true) : decOpt (getJ o) = o := by
  cases o with
  | none => rfl
  | some v =>
      simp only [okOpt] at h
      simp [getJ, decOpt, h]

lemma decNum_getJ {o : Option JVal} (h : okNum o = true) : decNum (getJ o) = o := by
  cases o with
  | none => rfl
  | some v =>
      cases v with
      | null => simp [okNum, isNull] at h
      | str s => rfl
      | num n => rfl
      | arr xs => rfl
      | obj kvs => rfl

lemma analysisDialog_rt {o : Option JVal} (h : okAnalysisDialog o = true) :
    analysisDialogFromDb (normDialogWrite o) = singletonNorm o := by
  cases o with
  | none => rfl
  | some v =>
      cases v with
      | null => simp [okAnalysisDialog] at h
      | str s =>
          simp [normDialogWrite, getJ, analysisDialogFromDb, truthy, singletonNorm]
      | num n =>
          simp [normDialogWrite, getJ, analysisDialogFromDb, truthy, singletonNorm]
      | arr xs =>
          cases xs with
          | nil => simp [okAnalysisDialog] at h
          | cons x rest =>
              cases rest with
              | nil => simp [normDialogWrite, getJ, analysisDialogFromDb, truthy, singletonNorm]
              | cons y rest2 => simp [normDialogWrite, getJ, analysisDialogFromDb, truthy, singletonNorm]
      | obj kvs =>
          simp [normDialogWrite, getJ, analysisDialogFromDb, truthy, singletonNorm]

/-- `decode(encode(party)) = party` for well-formed parties. -/
lemma party_rt (vid i : Nat) (p : Party) (h : partyOk p = true) :
    party_from_db (party_to_row vid i p) = p := by
  simp only [partyOk, Bool.and_eq_true] at h
  obtain ⟨⟨⟨⟨⟨⟨⟨⟨⟨⟨⟨h1, h2⟩, h3⟩, h4⟩, h5⟩, h6⟩, h7⟩, h8⟩, h9⟩, h10⟩, h11⟩, h12⟩ := h
  cases p
  simp [party_from_db, party_to_row, decOpt_getJ, *]

/-- `decode(encode(dialog)) = dialog` for well-formed dialog entries. -/
lemma dialog_rt (vid i : Nat) (d : Dialog) (h : dialogOk d = true) :
    dialog_from_db (dialog_to_row vid i d) = d := by
  simp only [dialogOk, Bool.and_eq_true] at h
  obtain ⟨⟨⟨⟨⟨⟨⟨⟨⟨⟨⟨⟨⟨⟨h1, h2⟩, h3⟩, h4⟩, h5⟩, h6⟩, h7⟩, h8⟩, h9⟩, h10⟩, h11⟩, h12⟩, h13⟩, h14⟩, h15⟩ := h
  obtain ⟨t, ht⟩ := Option.isSome_iff_exists.mp h1
  cases d
  simp only at ht
  subst ht
  simp only [dialog_from_db, dialog_to_row, getJ, Dialog.mk.injEq]
  exact ⟨rfl, decOpt_getJ h2, decNum_getJ h3, decOpt_getJ h4, decNum_getJ h5,
    decOpt_getJ h6, decOpt_getJ h7, decOpt_getJ h8, decOpt_getJ h9, decOpt_getJ h10,
    decOpt_getJ h11, decOpt_getJ h12, decOpt_getJ h13, decOpt_getJ h14, decOpt_getJ h15⟩

/-- `decode(encode(analysis)) = analysisNorm analysis` for well-formed
analysis entries: exact except the singleton dialog-reference unwrap. -/
lemma analysis_rt (vid i : Nat) (a : Analysis) (h : analysisOk a = true) :
    analysis_from_db (analysis_to_row vid i a) = analysisNorm a := by
  simp only [analysisOk, Bool.and_eq_true] at h
  obtain ⟨⟨⟨⟨⟨⟨⟨⟨⟨⟨h1, h2⟩, h3⟩, h4⟩, h5⟩, h6⟩, h7⟩, h8⟩, h9⟩, h10⟩, h11⟩ := h
  obtain ⟨t, ht⟩ := Option.isSome_iff_exists.mp h1
  obtain ⟨w, hw⟩ := Option.isSome_iff_exists.mp h2
  cases a
  simp only at ht hw
  subst ht; subst hw
  simp only [analysis_from_db, analysis_to_row, analysisNorm, getJ, Analysis.mk.injEq]
  exact ⟨rfl, analysisDialog_rt h3, decOpt_getJ h4, decOpt_getJ h5, rfl,
    decOpt_getJ h6, decOpt_getJ h7, decOpt_getJ h8, decOpt_getJ h9,
    decOpt_getJ h10, decOpt_getJ h11⟩

/-- `decode(encode(attachment)) = attachment` for well-formed attachments. -/
lemma attachment_rt (vid i : Nat) (a : Attachment) (h : attachmentOk a = true) :
    attachment_from_db (attachment_to_row vid i a) = a := by
  simp only [attachmentOk, Bool.and_eq_true] at h
  obtain ⟨⟨⟨⟨⟨⟨⟨⟨⟨h1, h2⟩, h3⟩, h4⟩, h5⟩, h6⟩, h7⟩, h8⟩, h9⟩, h10⟩ := h
  cases a
  simp [attachment_from_db, attachment_to_row, decOpt_getJ, decNum_getJ, *]

/-! ## Store round-trip lemmas -/

lemma upsertRow_fresh {ρ : Type} (vid idx : ρ → Nat) (tbl : List ρ) (r : ρ)
    (h : ∀ s ∈ tbl, vid s = vid r → idx s ≠ idx r) :
    upsertRow vid idx tbl r = tbl ++ [r] := by
  have hany : tbl.any (fun s => vid s == vid r && idx s == idx r) = false := by
    rw [List.any_eq_false]
    intro s hs
    simp only [Bool.and_eq_true, beq_iff_eq, not_and]
    intro hv
    exact h s hs hv
  simp [upsertRow, hany]

lemma filter_saveLoop {α ρ : Type} (vid idx : ρ → Nat) (enc : Nat → α → ρ) (v : Nat)
    (hv : ∀ i a, vid (enc i a) = v) (hi : ∀ i a, idx (enc i a) = i) :
    ∀ (l : List α) (i : Nat) (tbl : List ρ),
      (∀ r ∈ tbl, vid r = v → idx r < i) →
      (saveLoop vid idx enc i l tbl).filter (fun r => vid r == v)
        = tbl.filter (fun r => vid r == v) ++ mapEnum enc i l := by
  intro l
  induction l with
  | nil =>
      intro i tbl _
      simp [saveLoop, mapEnum]
  | cons a rest ih =>
      intro i tbl htbl
      have hfresh : upsertRow vid idx tbl (enc i a) = tbl ++ [enc i a] := by
        apply upsertRow_fresh
        intro s hs hvs
        rw [hi, hv] at *
        exact Nat.ne_of_lt (htbl s hs hvs)
      have htbl2 : ∀ r ∈ tbl ++ [enc i a], vid r = v → idx r < i + 1 := by
        intro r hr hvr
        rcases List.mem_append.mp hr with hr1 | hr2
        · exact Nat.lt_succ_of_lt (htbl r hr1 hvr)
        · rcases List.mem_singleton.mp hr2 with rfl
          rw [hi]
          exact Nat.lt_succ_self i
      calc (saveLoop vid idx enc i (a :: rest) tbl).filter (fun r => vid r == v)
          = (saveLoop vid idx enc (i + 1) rest (tbl ++ [enc i a])).filter (fun r => vid r == v) := by
            rw [saveLoop, hfresh]
        _ = (tbl ++ [enc i a]).filter (fun r => vid r == v) ++ mapEnum enc (i + 1) rest := ih (i + 1) _ htbl2
        _ = tbl.filter (fun r => vid r == v) ++ mapEnum enc i (a :: rest) := by
            rw [List.filter_append, mapEnum]
            have : [enc i a].filter (fun r => vid r == v) = [enc i a] := by
              simp [List.filter, hv]
            rw [this, List.append_assoc]
            rfl

lemma sortOn_mapEnum {α ρ : Type} (idx : ρ → Nat) (enc : Nat → α → ρ)
    (hi : ∀ i a, idx (enc i a) = i) :
    ∀ (l : List α) (i : Nat), sortOn idx (mapEnum enc i l) = mapEnum enc i l := by
  intro l
  induction l with
  | nil => intro i; rfl
  | cons a rest ih =>
      intro i
      rw [mapEnum, sortOn, ih (i + 1)]
      cases rest with
      | nil => rfl
      | cons b rest2 =>
          rw [mapEnum, insertOn]
          have : idx (enc i a) ≤ idx (enc (i + 1) b) := by
            rw [hi, hi]
            exact Nat.le_succ i
          simp [this]

lemma map_dec_mapEnum {α ρ : Type} (enc : Nat → α → ρ) (dec : ρ → α) (g : α → α)
    (P : α → Bool) (hrt : ∀ i a, P a = true → dec (enc i a) = g a) :
    ∀ (l : List α) (i : Nat), (∀ a ∈ l, P a = true) →
      (mapEnum enc i l).map dec = l.map g := by
  intro l
  induction l with
  | nil => intro i _; rfl
  | cons a rest ih =>
      intro i hl
      rw [mapEnum, List.map, List.map, hrt i a (hl a (List.mem_cons_self a rest)),
        ih (i + 1) (fun x hx => hl x (List.mem_cons_of_mem a hx))]

/-- The complete read-back of a freshly written sub-collection: writing the
enumerated rows into a table holding no rows for this parent, then
filtering, ordering and decoding, yields the per-element decode of each
entity in order. -/
lemma readRows_saveLoop {α ρ : Type} (vid idx : ρ → Nat) (enc : Nat → α → ρ)
    (dec : ρ → α) (g : α → α) (P : α → Bool) (v : Nat)
    (hv : ∀ i a, vid (enc i a) = v) (hi : ∀ i a, idx (enc i a) = i)
    (hrt : ∀ i a, P a = true → dec (enc i a) = g a)
    (l : List α) (tbl : List ρ) (htbl : ∀ r ∈ tbl, vid r ≠ v)
    (hl : ∀ a ∈ l, P a = true) :
    (readRows vid idx v (saveLoop vid idx enc 0 l tbl)).map dec = l.map g := by
  have hempty : tbl.filter (fun r => vid r == v) = [] := by
    rw [List.filter_eq_nil_iff]
    intro r hr
    simp only [beq_iff_eq]
    exact htbl r hr
  have h1 := filter_saveLoop vid idx enc v hv hi l 0 tbl (fun r hr hvr => absurd hvr (htbl r hr))
  rw [readRows, h1, hempty, List.nil_append, sortOn_mapEnum idx enc hi]
  exact map_dec_mapEnum enc dec g P hrt l 0 hl

/-- Reading back a freshly saved party list. -/
lemma get_parties_save (ps : List Party) (h : ∀ p ∈ ps, partyOk p = true) :
    get_parties 0 (save_parties 0 ps []) = ps := by
  have hmain := readRows_saveLoop PartyRow.vcon_id PartyRow.party_index (party_to_row 0)
    party_from_db id partyOk 0 (fun _ _ => rfl) (fun _ _ => rfl)
    (fun i a ha => party_rt 0 i a ha) ps []
    (by intro r hr; exact absurd hr (List.not_mem_nil r)) h
  simpa [get_parties, save_parties, List.map_id] using hmain

/-- Reading back a freshly saved dialog list. -/
lemma get_dialog_save (ds : List Dialog) (h : ∀ d ∈ ds, dialogOk d = true) :
    get_dialog 0 (save_dialog 0 ds []) = ds := by
  have hmain := readRows_saveLoop DialogRow.vcon_id DialogRow.dialog_index (dialog_to_row 0)
    dialog_from_db id dialogOk 0 (fun _ _ => rfl) (fun _ _ => rfl)
    (fun i a ha => dialog_rt 0 i a ha) ds []
    (by intro r hr; exact absurd hr (List.not_mem_nil r)) h
  simpa [get_dialog, save_dialog, List.map_id] using hmain

/-- Reading back a freshly saved analysis list: each entry comes back
singleton-normalized. -/
lemma get_analysis_save (xs : List Analysis) (h : ∀ a ∈ xs, analysisOk a = true) :
    get_analysis 0 (save_analysis 0 xs []) = xs.map analysisNorm := by
  have hmain := readRows_saveLoop AnalysisRow.vcon_id AnalysisRow.analysis_index (analysis_to_row 0)
    analysis_from_db analysisNorm analysisOk 0 (fun _ _ => rfl) (fun _ _ => rfl)
    (fun i a ha => analysis_rt 0 i a ha) xs []
    (by intro r hr; exact absurd hr (List.not_mem_nil r)) h
  simpa [get_analysis, save_analysis] using hmain

/-- Reading back a freshly saved attachment list. -/
lemma get_attachments_save (xs : List Attachment) (h : ∀ a ∈ xs, attachmentOk a = true) :
    get_attachments 0 (save_attachments 0 xs []) = xs := by
  have hmain := readRows_saveLoop AttachmentRow.vcon_id AttachmentRow.attachment_index (attachment_to_row 0)
    attachment_from_db id attachmentOk 0 (fun _ _ => rfl) (fun _ _ => rfl)
    (fun i a ha => attachment_rt 0 i a ha) xs []
    (by intro r hr; exact absurd hr (List.not_mem_nil r)) h
  simpa [get_attachments, save_attachments, List.map_id] using hmain

/-- Evaluating `save` on the empty state with the cache disabled: the
header row is inserted with generated id 0 and every present sub-collection
is written under that id. -/
lemma save_empty_state (f : Faults) (now s : String) (v : Vcon)
    (ps : List Party) (ds : List Dialog) (xs : List Analysis) (ats : List Attachment)
    (hst : f.store = false) (hu : v.uuid = some s) (hs : s ≠ "")
    (hp : v.parties = some ps) (hd : v.dialog = some ds)
    (ha : v.analysis = some xs) (hatt : v.attachments = some ats) :
    SB.save { cacheEnabled := false } f st0 now v =
      ({ db := { vcons := [{ headerRow s now v with id := 0 }]
                 parties := save_parties 0 ps []
                 dialogs := save_dialog 0 ds []
                 analyses := save_analysis 0 xs []
                 attachments := save_attachments 0 ats []
                 nextId := 1 }
         cache := [] }, true) := by
  have hbeq : (s == "") = false := beq_eq_false_iff_ne.mpr hs
  cases ps <;> cases ds <;> cases xs <;> cases ats <;>
    simp [SB.save, SB.saveTry, st0, emptyDB, hu, hbeq, hst, upsertVcon,
      hp, hd, ha, hatt, save_parties, save_dialog, save_analysis, save_attachments,
      saveLoop]

/-- Evaluating `get` with the cache disabled when the header row is found:
the store path assembles the document from the tables. -/
lemma get_nocache (f : Faults) (st : St) (u : String) (r : VconRow)
    (hst : f.store = false)
    (hfind : st.db.vcons.find? (fun x => x.uuid == u) = some r) :
    SB.get { cacheEnabled := false } f st u = (st, some (assembleVcon st.db r)) := by
  simp only [SB.get, SB.getTry, hst, Bool.false_eq_true, if_false, hfind]

/-! ## Concrete fixtures -/

/-- A party with no populated field. -/
def pEmpty : Party :=
  { tel := none, sip := none, stir := none, mailto := none, name := none, did := none,
    uuid := none, validation := none, jcard := none, gmlpos := none,
    civicaddress := none, timezone := none }

/-- A party whose only populated field is the empty string. -/
def pNameEmptyStr : Party := { pEmpty with name := some (JVal.str "") }

/-- A party with one telephone number (the spec's scenario party). -/
def pTel : Party := { pEmpty with tel := some (JVal.str "+1555") }

/-- A dialog entry with no populated field. -/
def dEmpty : Dialog :=
  { type := none, start := none, duration := none, parties := none, originator := none,
    mediatype := none, filename := none, body := none, encoding := none, url := none,
    content_hash := none, disposition := none, session_id := none, application := none,
    message_id := none }

/-- The spec's scenario dialog entry: `type="text"`, `duration=0`. -/
def dText : Dialog := { dEmpty with type := some (JVal.str "text"), duration := some (JVal.num 0) }

/-- An analysis entry with no populated field. -/
def aEmpty : Analysis :=
  { type := none, dialog := none, mediatype := none, filename := none, vendor := none,
    product := none, schema := none, body := none, encoding := none, url := none,
    content_hash := none }

/-- A vCon with no populated field at all. -/
def vEmpty : Vcon :=
  { uuid := none, vcon := none, subject := none, created_at := none, updated_at := none,
    extensions := none, must_support := none, redacted := none, appended := none,
    parties := none, dialog := none, analysis := none, attachments := none }

/-- The spec's scenario document: `uuid="abc"`, one party, one dialog. -/
def vScenario : Vcon :=
  { vEmpty with
    uuid := some "abc"
    parties := some [pTel]
    dialog := some [dText]
    analysis := some []
    attachments := some [] }

/-- A document holding a party populated with an empty-string field. -/
def vC1 : Vcon := { vEmpty with uuid := some "u1", parties := some [pNameEmptyStr] }

/-! ## C1 -/

/-- C1 (amended): round-trip through the relational codec.  Saving a
document into an empty store with the cache disabled and reading it back
via the store path reproduces each sub-entity exactly — provided every
populated optional field carries a truthy value (zero being allowed for the
`is not None`-guarded numeric fields) — except the analysis
dialog-reference field, which is singleton-normalized.  Fields populated
with falsy values (empty string, empty list, explicit null) do not survive
(see the counterexample), which is the one restriction added to the claim
as stated. -/
theorem c1_store_roundtrip (f : Faults) (now s : String) (v : Vcon)
    (ps : List Party) (ds : List Dialog) (xs : List Analysis) (ats : List Attachment)
    (hst : f.store = false) (hu : v.uuid = some s) (hs : s ≠ "")
    (hp : v.parties = some ps) (hd : v.dialog = some ds)
    (ha : v.analysis = some xs) (hatt : v.attachments = some ats)
    (hpok : ∀ p ∈ ps, partyOk p = true) (hdok : ∀ d ∈ ds, dialogOk d = true)
    (haok : ∀ a ∈ xs, analysisOk a = true) (hatok : ∀ a ∈ ats, attachmentOk a = true) :
    ∃ w : Vcon,
      (SB.get { cacheEnabled := false } f
        (SB.save { cacheEnabled := false } f st0 now v).1 s).2 = some w ∧
      w.parties = some ps ∧ w.dialog = some ds ∧
      w.analysis = some (xs.map analysisNorm) ∧ w.attachments = some ats := by
  rw [save_empty_state f now s v ps ds xs ats hst hu hs hp hd ha hatt]
  have hfind :
      ([{ headerRow s now v with id := 0 }] : List VconRow).find? (fun x => x.uuid == s)
        = some { headerRow s now v with id := 0 } := by
    apply List.find?_cons_of_pos
    simp [headerRow]
  rw [get_nocache f _ s _ hst hfind]
  refine ⟨_, rfl, ?_, ?_, ?_, ?_⟩
  · show some (get_parties 0 (save_parties 0 ps [])) = some ps
    rw [get_parties_save ps hpok]
  · show some (get_dialog 0 (save_dialog 0 ds [])) = some ds
    rw [get_dialog_save ds hdok]
  · show some (get_analysis 0 (save_analysis 0 xs [])) = some (xs.map analysisNorm)
    rw [get_analysis_save xs haok]
  · show some (get_attachments 0 (save_attachments 0 ats [])) = some ats
    rw [get_attachments_save ats hatok]

/-- C1 witness: the spec's scenario document round-trips exactly through
save followed by a store-path get. -/
theorem c1_store_roundtrip_witness :
    ∃ w : Vcon,
      (SB.get { cacheEnabled := false } f0
        (SB.save { cacheEnabled := false } f0 st0 "t0" vScenario).1 "abc").2 = some w ∧
      w.parties = some [pTel] ∧ w.dialog = some [dText] ∧
      w.analysis = some (List.map analysisNorm []) ∧ w.attachments = some [] :=
  c1_store_roundtrip f0 "t0" "abc" vScenario [pTel] [dText] [] [] rfl rfl
    (by decide) rfl rfl rfl rfl (by decide) (by decide) (by decide) (by decide)

/-- C1 counterexample to the claim as stated: a party whose `name` field is
populated with the (schema-conformant) empty string comes back with the
field dropped, so the saved sub-entity is not reproduced exactly. -/
theorem c1_counterexample :
    ((SB.get { cacheEnabled := false } f0
        (SB.save { cacheEnabled := false } f0 st0 "t0" vC1).1 "u1").2).map Vcon.parties
      = some (some [pEmpty]) ∧ pEmpty ≠ pNameEmptyStr := by
  constructor
  · rfl
  · intro h
    exact Option.noConfusion (congrArg Party.name h)

/-! ## C2 -/

/-- The optional fields of a party. -/
inductive PartyField where
  | tel | sip | stir | mailto | name | did | uuid | validation | jcard
  | gmlpos | civicaddress | timezone

/-- Project a party field by name. -/
def partyField : PartyField → Party → Option JVal
  | PartyField.tel, p => p.tel
  | PartyField.sip, p => p.sip
  | PartyField.stir, p => p.stir
  | PartyField.mailto, p => p.mailto
  | PartyField.name, p => p.name
  | PartyField.did, p => p.did
  | PartyField.uuid, p => p.uuid
  | PartyField.validation, p => p.validation
  | PartyField.jcard, p => p.jcard
  | PartyField.gmlpos, p => p.gmlpos
  | PartyField.civicaddress, p => p.civicaddress
  | PartyField.timezone, p => p.timezone

/-- The optional fields of a dialog entry. -/
inductive DialogField where
  | start | duration | parties | originator | mediatype | filename | body
  | encoding | url | content_hash | disposition | session_id | application
  | message_id

/-- Project a dialog field by name. -/
def dialogField : DialogField → Dialog → Option JVal
  | DialogField.start, d => d.start
  | DialogField.duration, d => d.duration
  | DialogField.parties, d => d.parties
  | DialogField.originator, d => d.originator
  | DialogField.mediatype, d => d.mediatype
  | DialogField.filename, d => d.filename
  | DialogField.body, d => d.body
  | DialogField.encoding, d => d.encoding
  | DialogField.url, d => d.url
  | DialogField.content_hash, d => d.content_hash
  | DialogField.disposition, d => d.disposition
  | DialogField.session_id, d => d.session_id
  | DialogField.application, d => d.application
  | DialogField.message_id, d => d.message_id

/-- The optional fields of an analysis entry. -/
inductive AnalysisField where
  | dialog | mediatype | filename | product | schema | body | encoding
  | url | content_hash

/-- Project an analysis field by name. -/
def analysisField : AnalysisField → Analysis → Option JVal
  | AnalysisField.dialog, a => a.dialog
  | AnalysisField.mediatype, a => a.mediatype
  | AnalysisField.filename, a => a.filename
  | AnalysisField.product, a => a.product
  | AnalysisField.schema, a => a.schema
  | AnalysisField.body, a => a.body
  | AnalysisField.encoding, a => a.encoding
  | AnalysisField.url, a => a.url
  | AnalysisField.content_hash, a => a.content_hash

/-- The optional fields of an attachment. -/
inductive AttachField where
  | type | start | party | dialog | mediatype | filename | body | encoding
  | url | content_hash

/-- Project an attachment field by name. -/
def attachField : AttachField → Attachment → Option JVal
  | AttachField.type, a => a.type
  | AttachField.start, a => a.start
  | AttachField.party, a => a.party
  | AttachField.dialog, a => a.dialog
  | AttachField.mediatype, a => a.mediatype
  | AttachField.filename, a => a.filename
  | AttachField.body, a => a.body
  | AttachField.encoding, a => a.encoding
  | AttachField.url, a => a.url
  | AttachField.content_hash, a => a.content_hash

/-- An attachment with no populated field. -/
def atEmpty : Attachment :=
  { type := none, start := none, party := none, dialog := none, mediatype := none,
    filename := none, body := none, encoding := none, url := none, content_hash := none }

/-- C2 (amended): presence preservation holds for every optional field of
every sub-entity, individually: a field absent from the entity passed to
save is absent from the entity reconstructed by the store path.  It does
NOT hold for the header fields — the reconstruction emits `subject`,
`extensions` and `must_support` as explicit nulls and
`redacted`/`appended` as `{}` defaults when absent (see the
counterexample), which is the restriction the code forces on the claim. -/
theorem c2_presence_subentities :
    (∀ (fn : PartyField) (vid i : Nat) (p : Party), partyField fn p = none →
        partyField fn (party_from_db (party_to_row vid i p)) = none) ∧
    (∀ (fn : DialogField) (vid i : Nat) (d : Dialog), dialogField fn d = none →
        dialogField fn (dialog_from_db (dialog_to_row vid i d)) = none) ∧
    (∀ (fn : AnalysisField) (vid i : Nat) (a : Analysis), analysisField fn a = none →
        analysisField fn (analysis_from_db (analysis_to_row vid i a)) = none) ∧
    (∀ (fn : AttachField) (vid i : Nat) (a : Attachment), attachField fn a = none →
        attachField fn (attachment_from_db (attachment_to_row vid i a)) = none) := by
  refine ⟨?_, ?_, ?_, ?_⟩
  · intro fn
    cases fn <;> (intro vid i p h; cases p; simp only [partyField] at h; subst h; rfl)
  · intro fn
    cases fn <;> (intro vid i d h; cases d; simp only [dialogField] at h; subst h; rfl)
  · intro fn
    cases fn <;> (intro vid i a h; cases a; simp only [analysisField] at h; subst h; rfl)
  · intro fn
    cases fn <;> (intro vid i a h; cases a; simp only [attachField] at h; subst h; rfl)

/-- C2 witness: concrete absent fields of each sub-entity kind stay absent
through the codec. -/
theorem c2_presence_witness :
    partyField PartyField.tel (party_from_db (party_to_row 0 0 pEmpty)) = none ∧
    dialogField DialogField.duration (dialog_from_db (dialog_to_row 0 0 dEmpty)) = none ∧
    analysisField AnalysisField.dialog (analysis_from_db (analysis_to_row 0 0 aEmpty)) = none ∧
    attachField AttachField.party (attachment_from_db (attachment_to_row 0 0 atEmpty)) = none :=
  ⟨c2_presence_subentities.1 PartyField.tel 0 0 pEmpty rfl,
   c2_presence_subentities.2.1 DialogField.duration 0 0 dEmpty rfl,
   c2_presence_subentities.2.2.1 AnalysisField.dialog 0 0 aEmpty rfl,
   c2_presence_subentities.2.2.2 AttachField.party 0 0 atEmpty rfl⟩

/-- A document whose optional `subject` header field is absent. -/
def vC2 : Vcon := { vEmpty with uuid := some "u2" }

/-- C2 counterexample to the claim as stated: the `subject` header field is
absent on save, yet the document reconstructed by the store-path get
contains the field as an explicit null. -/
theorem c2_counterexample :
    vC2.subject = none ∧
    ((SB.get { cacheEnabled := false } f0
        (SB.save { cacheEnabled := false } f0 st0 "t0" vC2).1 "u2").2).map Vcon.subject
      = some (some JVal.null) :=
  ⟨rfl, rfl⟩

/-! ## C8 -/

/-- A dialog entry with zero duration and zero originator index. -/
def dZero : Dialog :=
  { dEmpty with
    type := some (JVal.str "text")
    duration := some (JVal.num 0)
    originator := some (JVal.num 0) }

/-- C8: zero-value preservation.  A dialog entry saved with duration 0 is
reconstructed with duration 0 present (not absent), because the decode of
`duration_seconds` (and likewise `originator`) uses an explicit
`is not None` check rather than a truthiness check. -/
theorem c8_zero_preservation (vid i : Nat) (d : Dialog) :
    (d.duration = some (JVal.num 0) →
      (dialog_from_db (dialog_to_row vid i d)).duration = some (JVal.num 0)) ∧
    (d.originator = some (JVal.num 0) →
      (dialog_from_db (dialog_to_row vid i d)).originator = some (JVal.num 0)) := by
  constructor
  · intro h
    show decNum (getJ d.duration) = some (JVal.num 0)
    rw [h]
    rfl
  · intro h
    show decNum (getJ d.originator) = some (JVal.num 0)
    rw [h]
    rfl

/-- C8 witness: a concrete dialog entry with duration 0 and originator 0
keeps both through the codec. -/
theorem c8_zero_preservation_witness :
    (dialog_from_db (dialog_to_row 0 0 dZero)).duration = some (JVal.num 0) ∧
    (dialog_from_db (dialog_to_row 0 0 dZero)).originator = some (JVal.num 0) :=
  ⟨(c8_zero_preservation 0 0 dZero).1 rfl, (c8_zero_preservation 0 0 dZero).2 rfl⟩

/-! ## C3 -/

/-- An analysis entry with a singleton dialog-reference list `[2]`. -/
def aD1 : Analysis :=
  { aEmpty with
    type := some (JVal.str "t1")
    vendor := some (JVal.str "v1")
    dialog := some (JVal.arr [JVal.num 2]) }

/-- An analysis entry with dialog-reference list `[1, 3]`. -/
def aD2 : Analysis :=
  { aEmpty with
    type := some (JVal.str "t2")
    vendor := some (JVal.str "v2")
    dialog := some (JVal.arr [JVal.num 1, JVal.num 3]) }

/-- A document carrying the two scenario analysis entries. -/
def vC3 : Vcon := { vEmpty with uuid := some "u3", analysis := some [aD1, aD2] }

/-- C3: analysis dialog-reference shape.  On write a present non-null
non-list reference is wrapped into a one-element list and a list is kept;
on read a stored singleton list is unwrapped to a scalar, a longer list is
emitted whole, and an empty or null stored list yields no field.  The
spec's scenario — saving entries with `dialog=[2]` and `dialog=[1,3]` and
reading back `dialog=2` and `dialog=[1,3]` — holds through the full
save/get pipeline. -/
theorem c3_dialog_shape :
    (∀ v : JVal, isNull v = false → (∀ xs, v ≠ JVal.arr xs) →
        normDialogWrite (some v) = JVal.arr [v]) ∧
    (∀ xs, normDialogWrite (some (JVal.arr xs)) = JVal.arr xs) ∧
    normDialogWrite none = JVal.null ∧
    (∀ x, analysisDialogFromDb (JVal.arr [x]) = some x) ∧
    (∀ xs, xs.length ≥ 2 → analysisDialogFromDb (JVal.arr xs) = some (JVal.arr xs)) ∧
    analysisDialogFromDb (JVal.arr []) = none ∧
    analysisDialogFromDb JVal.null = none ∧
    ((SB.get { cacheEnabled := false } f0
        (SB.save { cacheEnabled := false } f0 st0 "t0" vC3).1 "u3").2).map Vcon.analysis
      = some (some [{ aD1 with dialog := some (JVal.num 2) }, aD2]) := by
  refine ⟨?_, ?_, rfl, ?_, ?_, rfl, rfl, rfl⟩
  · intro v h1 h2
    cases v with
    | null => exact absurd h1 (by simp [isNull])
    | str s => rfl
    | num n => rfl
    | arr xs => exact absurd rfl (h2 xs)
    | obj kvs => rfl
  · intro xs
    rfl
  · intro x
    rfl
  · intro xs h
    cases xs with
    | nil => exact absurd h (by simp)
    | cons x rest =>
        cases rest with
        | nil => exact absurd h (by simp)
        | cons y rest2 => rfl

/-- C3 witness: a scalar reference is wrapped on write, and a two-element
stored list is emitted whole on read. -/
theorem c3_dialog_shape_witness :
    normDialogWrite (some (JVal.num 2)) = JVal.arr [JVal.num 2] ∧
    analysisDialogFromDb (JVal.arr [JVal.num 1, JVal.num 3])
      = some (JVal.arr [JVal.num 1, JVal.num 3]) :=
  ⟨c3_dialog_shape.1 (JVal.num 2) rfl (fun _ h => JVal.noConfusion h),
   c3_dialog_shape.2.2.2.2.1 [JVal.num 1, JVal.num 3] (by decide)⟩

/-! ## C4 -/

/-- C4 (amended): a document lacking its `uuid` (or carrying an empty one)
makes `save` return `false` with the state untouched — before any store or
cache I/O — rather than raising to the caller: the `ValueError` raised
inside the `try` block is swallowed by `save`'s own catch-all handler and
converted to the same boolean-false outcome used for store faults. -/
theorem c4_missing_uuid (cfg : Config) (f : Faults) (st : St) (now : String) (v : Vcon)
    (h : v.uuid.getD "" = "") :
    SB.save cfg f st now v = (st, false) := by
  have hbeq : (v.uuid.getD "" == "") = true := beq_iff_eq.mpr h
  simp [SB.save, SB.saveTry, hbeq]

/-- C4 witness: saving the uuid-less empty document returns `false` and
leaves the state unchanged. -/
theorem c4_missing_uuid_witness :
    SB.save { cacheEnabled := true } f0 st0 "t0" vEmpty = (st0, false) :=
  c4_missing_uuid { cacheEnabled := true } f0 st0 "t0" vEmpty rfl

/-- C4 counterexample to the claim as stated: with no fault injected and a
healthy store, `save` of a uuid-less document evaluates to the
boolean-false outcome (the very outcome the claim says is not used); no
exception reaches the caller. -/
theorem c4_counterexample :
    SB.save { cacheEnabled := false } f0 st0 "t0" vEmpty = (st0, false) := rfl

/-! ## C5, C6, C7 -/

/-- A faulty cache on every operation, healthy store. -/
def fCacheFaults : Faults :=
  { store := false, cacheGet := true, cacheSet := true, cacheDel := true }

/-- C5: cache-fault isolation.  A faulting cache read makes `get` return
exactly what the store path alone (cache disabled) returns; the outcomes of
`save` and `delete` are invariant under any combination of cache faults
(they are fixed by the store flag alone).  Cache faults never change a
returned value or success/failure result. -/
theorem c5_cache_fault_isolation (cfg : Config) (f : Faults) (st : St)
    (u now : String) (v : Vcon) :
    (f.cacheGet = true →
      (SB.get cfg f st u).2 = (SB.get { cacheEnabled := false } f st u).2) ∧
    ((SB.save cfg f st now v).2
      = (SB.save cfg { f with cacheGet := false, cacheSet := false, cacheDel := false } st now v).2) ∧
    ((SB.delete cfg f st u).2
      = (SB.delete cfg { f with cacheGet := false, cacheSet := false, cacheDel := false } st u).2) := by
  refine ⟨?_, ?_, ?_⟩
  · intro h
    cases hst : f.store with
    | true => simp [SB.get, SB.getTry, cacheGetOp, h, hst]
    | false =>
        cases hfind : st.db.vcons.find? (fun r => r.uuid == u) with
        | none => simp [SB.get, SB.getTry, cacheGetOp, h, hst, hfind]
        | some r => simp [SB.get, SB.getTry, cacheGetOp, h, hst, hfind]
  · cases hu : (v.uuid.getD "" == "") with
    | true => simp [SB.save, SB.saveTry, hu]
    | false =>
        cases hst : f.store with
        | true => simp [SB.save, SB.saveTry, hu, hst]
        | false => simp [SB.save, SB.saveTry, hu, hst]
  · cases hst : f.store with
    | true => simp [SB.delete, SB.deleteTry, hst]
    | false => simp [SB.delete, SB.deleteTry, hst]

/-- C5 witness: with every cache operation faulting, `get` matches the
store-path outcome and `save`/`delete` report their store-driven results. -/
theorem c5_cache_fault_isolation_witness :
    ((SB.get { cacheEnabled := true } fCacheFaults st0 "abc").2
      = (SB.get { cacheEnabled := false } fCacheFaults st0 "abc").2) ∧
    ((SB.save { cacheEnabled := true } fCacheFaults st0 "t0" vScenario).2
      = (SB.save { cacheEnabled := true }
          { fCacheFaults with cacheGet := false, cacheSet := false, cacheDel := false }
          st0 "t0" vScenario).2) ∧
    ((SB.delete { cacheEnabled := true } fCacheFaults st0 "abc").2
      = (SB.delete { cacheEnabled := true }
          { fCacheFaults with cacheGet := false, cacheSet := false, cacheDel := false }
          st0 "abc").2) :=
  ⟨(c5_cache_fault_isolation { cacheEnabled := true } fCacheFaults st0 "abc" "t0" vScenario).1 rfl,
   (c5_cache_fault_isolation { cacheEnabled := true } fCacheFaults st0 "abc" "t0" vScenario).2.1,
   (c5_cache_fault_isolation { cacheEnabled := true } fCacheFaults st0 "abc" "t0" vScenario).2.2⟩

/-- C6: total public operations under store faults.  When every store call
raises, the catch-all handlers convert the fault to the designated
outcome: `save` returns false, `delete` returns false, `search` returns
the empty list, and `get` (when the cache holds no entry for the key, so
the store path is reached) returns absent.  No exception escapes a public
operation. -/
theorem c6_store_fault_outcomes (cfg : Config) (f : Faults) (st : St) (now : String)
    (v : Vcon) (u : String) (q : Query) (hst : f.store = true) :
    (SB.save cfg f st now v).2 = false ∧
    (SB.delete cfg f st u).2 = false ∧
    (SB.search cfg f st q).2 = [] ∧
    (lookupCache st.cache u = none → (SB.get cfg f st u).2 = none) := by
  refine ⟨?_, ?_, ?_, ?_⟩
  · cases hu : (v.uuid.getD "" == "") with
    | true => simp [SB.save, SB.saveTry, hu]
    | false => simp [SB.save, SB.saveTry, hu, hst]
  · simp [SB.delete, SB.deleteTry, hst]
  · simp [SB.search, hst]
  · intro hc
    cases hcg : f.cacheGet with
    | true => simp [SB.get, SB.getTry, cacheGetOp, hcg, hst]
    | false => simp [SB.get, SB.getTry, cacheGetOp, hcg, hst, hc]

/-- Store faults on every call. -/
def fStoreFault : Faults :=
  { store := true, cacheGet := false, cacheSet := false, cacheDel := false }

/-- C6 witness: with the store faulting, the four public operations return
false / false / empty / absent on concrete inputs. -/
theorem c6_store_fault_outcomes_witness :
    (SB.save { cacheEnabled := true } fStoreFault st0 "t0" vScenario).2 = false ∧
    (SB.delete { cacheEnabled := true } fStoreFault st0 "abc").2 = false ∧
    (SB.search { cacheEnabled := true } fStoreFault st0
      { subject := none, start_date := none, end_date := none }).2 = [] ∧
    (SB.get { cacheEnabled := true } fStoreFault st0 "abc").2 = none := by
  have h := c6_store_fault_outcomes { cacheEnabled := true } fStoreFault st0 "t0"
    vScenario "abc" { subject := none, start_date := none, end_date := none } rfl
  exact ⟨h.1, h.2.1, h.2.2.1, h.2.2.2 rfl⟩

/-- When the cache holds the key and its read does not fault, `get` returns
the cached document with the state untouched, regardless of the store. -/
lemma get_cache_hit (cfg : Config) (f : Faults) (st : St) (u : String) (w : Vcon)
    (hce : cfg.cacheEnabled = true) (hcg : f.cacheGet = false)
    (hhit : lookupCache st.cache u = some w) :
    SB.get cfg f st u = (st, some w) := by
  simp [SB.get, cacheGetOp, hce, hcg, hhit]

/-- C7: cache precedence on read.  With caching enabled, a non-faulting
cache read and the key present, `get` returns the cached document and does
not touch the store at all — the theorem holds for an arbitrary `f.store`,
in particular for a fault-injected store that would raise if queried, and
the returned state is exactly the input state. -/
theorem c7_cache_precedence (cfg : Config) (f : Faults) (st : St) (u : String) (w : Vcon)
    (hce : cfg.cacheEnabled = true) (hcg : f.cacheGet = false)
    (hhit : lookupCache st.cache u = some w) :
    SB.get cfg f st u = (st, some w) :=
  get_cache_hit cfg f st u w hce hcg hhit

/-- A state whose cache holds the scenario document under key `"abc"`. -/
def stWithCache : St := { db := emptyDB, cache := [("abc", vScenario)] }

/-- C7 witness: a cache hit is served even while the store is
fault-injected to raise on any query. -/
theorem c7_cache_precedence_witness :
    SB.get { cacheEnabled := true }
      { store := true, cacheGet := false, cacheSet := false, cacheDel := false }
      stWithCache "abc" = (stWithCache, some vScenario) :=
  c7_cache_precedence { cacheEnabled := true }
    { store := true, cacheGet := false, cacheSet := false, cacheDel := false }
    stWithCache "abc" vScenario rfl rfl rfl

/-! ## C9 -/

/-- The spec-side reading of the search criteria: every present criterion
must hold, conjunctively — case-insensitive substring containment on the
subject, a lower and an upper bound on the creation time. -/
def specMatch (q : Query) (r : VconRow) : Prop :=
  (∀ s, q.subject = some s → ilikeContains r.subject s = true) ∧
  (∀ s, q.start_date = some s → gteCreated r.created_at s = true) ∧
  (∀ s, q.end_date = some s → lteCreated r.created_at s = true)

/-- A document with subject "Invoice 42" created 2024-01-05. -/
def vA : Vcon :=
  { vEmpty with
    uuid := some "a"
    subject := some (JVal.str "Invoice 42")
    created_at := some (JVal.str "2024-01-05") }

/-- A document with subject "receipt" created 2024-02-01. -/
def vB : Vcon :=
  { vEmpty with
    uuid := some "b"
    subject := some (JVal.str "receipt")
    created_at := some (JVal.str "2024-02-01") }

/-- The state after saving the two search-scenario documents. -/
def stAB : St :=
  (SB.save { cacheEnabled := false } f0
    (SB.save { cacheEnabled := false } f0 st0 "t0" vA).1 "t0" vB).1

/-- C9: search semantics.  The filter chain applied to the header table is
exactly the conjunction of the present criteria (case-insensitive
substring on subject, creation-time lower and upper bounds); empty
criteria match every header row.  Concretely, on a store holding the two
scenario documents, searching subject "invoice" returns (via `get`
resolution) exactly the document whose subject contains it
case-insensitively, empty criteria return all documents, and adding a
creation-time lower bound conjunctively empties the result. -/
theorem c9_search_semantics :
    (∀ (q : Query) (r : VconRow), matchQuery q r = true ↔ specMatch q r) ∧
    (∀ r : VconRow,
      matchQuery { subject := none, start_date := none, end_date := none } r = true) ∧
    ((SB.search { cacheEnabled := false } f0 stAB
        { subject := some "invoice", start_date := none, end_date := none }).2).map Vcon.uuid
      = [some "a"] ∧
    ((SB.search { cacheEnabled := false } f0 stAB
        { subject := none, start_date := none, end_date := none }).2).map Vcon.uuid
      = [some "a", some "b"] ∧
    ((SB.search { cacheEnabled := false } f0 stAB
        { subject := some "invoice", start_date := some "2024-02-01", end_date := none }).2)
      = [] := by
  refine ⟨?_, ?_, rfl, rfl, rfl⟩
  · intro q r
    cases hq1 : q.subject <;> cases hq2 : q.start_date <;> cases hq3 : q.end_date <;>
      simp [matchQuery, specMatch, hq1, hq2, hq3, and_assoc]
  · intro r
    rfl

/-! ## C10 -/

/-- The cache entry written by a successful `save`: the input document,
verbatim, under its uuid. -/
lemma save_cache_component (f : Faults) (st : St) (now s : String) (v : Vcon)
    (hst : f.store = false) (hcs : f.cacheSet = false)
    (hu : v.uuid = some s) (hs : s ≠ "") :
    (SB.save { cacheEnabled := true } f st now v).1.cache
      = (s, v) :: st.cache.filter (fun e => !(e.1 == s)) := by
  have hbeq : (s == "") = false := beq_eq_false_iff_ne.mpr hs
  simp [SB.save, SB.saveTry, hu, hbeq, hst, cacheSetOp, hcs]

/-- The document lacking subject, timestamps and all sub-collections used
to separate the two read paths. -/
def vC10 : Vcon := { vEmpty with uuid := some "u10" }

/-- The store-path reconstruction of `vC10` after saving it at time "t0":
nulls and defaults appear for the absent header fields and all four
sub-collections come back as present empty lists. -/
def wC10 : Vcon :=
  { uuid := some "u10", vcon := some (JVal.str "0.3.0"), subject := some JVal.null,
    created_at := some (JVal.str "t0"), updated_at := some (JVal.str "t0"),
    extensions := some JVal.null, must_support := some JVal.null,
    redacted := some (JVal.obj []), appended := some (JVal.obj []),
    parties := some [], dialog := some [], analysis := some [], attachments := some [] }

/-- C10: the two read paths are not equivalent.  With a healthy cache,
`save` caches the input document verbatim and a `get` within the TTL
returns it exactly as passed (for every document); whereas after cache
expiry or with the cache disabled, the same `get` returns the store-path
reconstruction, which can differ in shape from the cached form — shown by
a concrete document that comes back changed. -/
theorem c10_cache_vs_store_paths :
    (∀ (f : Faults) (st : St) (now s : String) (v : Vcon),
      f.store = false → f.cacheGet = false → f.cacheSet = false →
      v.uuid = some s → s ≠ "" →
      (SB.get { cacheEnabled := true } f
        (SB.save { cacheEnabled := true } f st now v).1 s).2 = some v) ∧
    ((SB.get { cacheEnabled := false } f0
        (SB.save { cacheEnabled := false } f0 st0 "t0" vC10).1 "u10").2 = some wC10 ∧
      wC10 ≠ vC10) := by
  constructor
  · intro f st now s v hst hcg hcs hu hs
    have hc := save_cache_component f st now s v hst hcs hu hs
    have hhit : lookupCache (SB.save { cacheEnabled := true } f st now v).1.cache s
        = some v := by
      rw [hc]
      simp [lookupCache]
    rw [get_cache_hit { cacheEnabled := true } f
      (SB.save { cacheEnabled := true } f st now v).1 s v rfl hcg hhit]
  · refine ⟨rfl, ?_⟩
    intro h
    exact Option.noConfusion (congrArg Vcon.parties h)

/-- C10 witness: the scenario document is returned verbatim by a cache-hit
`get` right after its `save`. -/
theorem c10_cache_vs_store_paths_witness :
    (SB.get { cacheEnabled := true } f0
      (SB.save { cacheEnabled := true } f0 st0 "t0" vScenario).1 "abc").2 = some vScenario :=
  c10_cache_vs_store_paths.1 f0 st0 "t0" "abc" vScenario rfl rfl rfl rfl (by decide)
